import Mathlib

/-!
Verification development for the IVA-book consolidation engine
(Utils/excel_processor.py, Utils/drive_handler.py, fastapi_app.py).

The tabular data model is a shallow embedding of a pandas DataFrame:
a header (column names) plus a list of rows of cells.  A cell is either
missing (NaN), a rational number, a string, or a calendar date.  Monetary
amounts are modelled as rationals.
-/

namespace IvaBooks

/-- A spreadsheet cell: missing value (NaN), number, string, or date. -/
inductive Cell where
  | na : Cell
  | num : ℚ → Cell
  | str : String → Cell
  | date : Nat → Nat → Nat → Cell
deriving DecidableEq

/-- Whether a cell is the missing value (NaN). -/
def Cell.isNA : Cell → Bool
  | Cell.na => true
  | _ => false

/-- Whether a cell holds a number. -/
def Cell.isNumCell : Cell → Bool
  | Cell.num _ => true
  | _ => false

/-- Whether a cell holds a date. -/
def Cell.isDateCell : Cell → Bool
  | Cell.date _ _ _ => true
  | _ => false

/-- A pandas DataFrame: column names plus rows of cells. -/
structure DataFrame where
  header : List String
  rows : List (List Cell)
deriving DecidableEq

/-- Reading a cell of a row by column position; positions beyond the row read NaN. -/
def rowGet (r : List Cell) (j : Nat) : Cell := r.getD j Cell.na

/-- The column of a frame at position j, as the list of its cells down the rows. -/
def getCol (df : DataFrame) (j : Nat) : List Cell := df.rows.map (fun r => rowGet r j)

/-- Position of the first column with the given name, mirroring columns.get_loc. -/
def colIdxAux (name : String) : List String → Nat → Option Nat
  | [], _ => none
  | h :: t, k => if h = name then some k else colIdxAux name t (k + 1)

/-- Position of the first column named name in the frame, if any. -/
def colIdx? (df : DataFrame) (name : String) : Option Nat := colIdxAux name df.header 0

/-- A column is droppable when it is entirely NaN or entirely numeric zero,
mirroring df[col].isna().all() or (df[col] == 0).all() in clean_data. -/
def dropColPred (col : List Cell) : Bool :=
  col.all Cell.isNA || col.all (fun c => decide (c = Cell.num 0))

/-- A column position survives the scrub when it is at or before the Moneda
marker position m, or its content is not droppable. -/
def keepIdx (df : DataFrame) (m j : Nat) : Bool :=
  decide (j ≤ m) || ! dropColPred (getCol df j)

/-- The kept column positions, in their original order. -/
def scrubIdxs (df : DataFrame) (m : Nat) : List Nat :=
  (List.range df.header.length).filter (keepIdx df m)

/-- Dropping the empty and all-zero columns after the Moneda marker,
mirroring the columns_to_drop loop of clean_data. -/
def scrub (df : DataFrame) (m : Nat) : DataFrame :=
  ⟨(scrubIdxs df m).map (fun j => df.header.getD j ""),
   df.rows.map (fun r => (scrubIdxs df m).map (fun j => rowGet r j))⟩

/-- A column has a numeric dtype (float64 or int64) when every cell is a
number or NaN, mirroring select_dtypes in clean_data. -/
def isNumericCol (col : List Cell) : Bool := col.all (fun c => c.isNumCell || c.isNA)

/-- Positions of the numeric columns strictly after the Moneda marker,
mirroring numeric_cols in clean_data. -/
def numericIdxs (df : DataFrame) (m : Nat) : List Nat :=
  (List.range df.header.length).filter (fun j => decide (m < j) && isNumericCol (getCol df j))

/-- Cell multiplication with NaN propagation, as in pandas column products. -/
def mulCell : Cell → Cell → Cell
  | Cell.num a, Cell.num b => Cell.num (a * b)
  | _, _ => Cell.na

/-- Whether a cell is a strictly positive number; NaN compares as not positive. -/
def cellPos : Cell → Bool
  | Cell.num q => decide (0 < q)
  | _ => false

/-- Negating a numeric cell; other cells are unchanged. -/
def negCell : Cell → Cell
  | Cell.num q => Cell.num (-q)
  | c => c

/-- ASCII lowercasing of a string, as lower() acts on the ASCII letters. -/
def strLowerAscii (s : String) : String := String.mk (s.data.map Char.toLower)

/-- Substring search over character lists. -/
def subAux (p : List Char) : List Char → Bool
  | [] => p.isEmpty
  | c :: t => p.isPrefixOf (c :: t) || subAux p t

/-- Whether pat occurs as a contiguous substring of s, as str.contains does. -/
def containsSub (s pat : String) : Bool := subAux pat.data s.data

/-- Rendering a cell as a string, mirroring astype(str): NaN renders as nan,
numbers and dates render with digits and separators only. -/
def cellToStr : Cell → String
  | Cell.na => "nan"
  | Cell.num q => toString q.num ++ "/" ++ toString q.den
  | Cell.str s => s
  | Cell.date d m y => toString y ++ "-" ++ toString m ++ "-" ++ toString d

/-- The credit-note test of clean_data: case-insensitive containment of
the pattern nota de cr[eé]dito or nc in the Tipo field.  The uppercase
accented E is kept as an alternative because ASCII lowercasing fixes the
unaccented letters only. -/
def isNotaCredito (s : String) : Bool :=
  containsSub (strLowerAscii s) "nota de credito" ||
  containsSub (strLowerAscii s) "nota de crédito" ||
  containsSub (strLowerAscii s) "nota de crÉdito" ||
  containsSub (strLowerAscii s) "nc"

/-- One row of the scaling and sign-correction loop of clean_data: each
numeric column after the marker is multiplied by the Tipo Cambio cell of
the row, and the product is negated when the row is a credit note and the
product is still positive. -/
def scaleRow (tipoIdx tcIdx : Nat) (numIdxs : List Nat) (r : List Cell) : List Cell :=
  (List.range r.length).map (fun j =>
    if numIdxs.contains j then
      if isNotaCredito (cellToStr (rowGet r tipoIdx)) &&
         cellPos (mulCell (rowGet r j) (rowGet r tcIdx)) then
        negCell (mulCell (rowGet r j) (rowGet r tcIdx))
      else mulCell (rowGet r j) (rowGet r tcIdx)
    else rowGet r j)

/-- The scaling and sign-correction pass applied to every row. -/
def scaleSign (df : DataFrame) (tipoIdx tcIdx : Nat) (numIdxs : List Nat) : DataFrame :=
  ⟨df.header, df.rows.map (scaleRow tipoIdx tcIdx numIdxs)⟩

/-- Two-digit zero padding for date rendering. -/
def pad2 (n : Nat) : String := if n < 10 then "0" ++ toString n else toString n

/-- Rendering a date cell as dd/mm/yyyy, as strftime does; other cells unchanged. -/
def fmtDateCell : Cell → Cell
  | Cell.date d m y => Cell.str (pad2 d ++ "/" ++ pad2 m ++ "/" ++ toString y)
  | c => c

/-- The Fecha formatting step of clean_data: when the Fecha column is of a
datetime dtype (all cells dates or NaN) its dates are rendered as strings;
an object-dtype column is left as is. -/
def formatFecha (df : DataFrame) (f : Nat) : DataFrame :=
  if (getCol df f).all (fun c => c.isDateCell || c.isNA) then
    ⟨df.header,
     df.rows.map (fun r =>
       (List.range r.length).map (fun j => if j = f then fmtDateCell (rowGet r j) else rowGet r j))⟩
  else df

/-- The numeric value of a cell for summation; NaN contributes zero, as the
skipna sum of pandas does. -/
def cellQ : Cell → ℚ
  | Cell.num q => q
  | _ => 0

/-- Sum of the column at position j, skipping NaN. -/
def colSumQ (df : DataFrame) (j : Nat) : ℚ := ((getCol df j).map cellQ).sum

/-- The totals row of clean_data: the sum in each numeric column after the
marker, the empty string everywhere else. -/
def totalsRow (df : DataFrame) (numIdxs : List Nat) : List Cell :=
  (List.range df.header.length).map
    (fun j => if numIdxs.contains j then Cell.num (colSumQ df j) else Cell.str "")

/-- Appending the totals row as the final row. -/
def addTotals (df : DataFrame) (numIdxs : List Nat) : DataFrame :=
  ⟨df.header, df.rows ++ [totalsRow df numIdxs]⟩

/-- The error taxonomy of the processing core. -/
inductive PError where
  | missingMoneda
  | keyError (col : String)
  | noValidDates
  | headerDetection (msg : String)
deriving DecidableEq

deriving instance DecidableEq for Except

/-- Final phase of clean_data after scaling: the Fecha column is looked up
(KeyError when absent), formatted, and the totals row is appended. -/
def cleanDataFinish (df1 : DataFrame) (tipoIdx tcIdx : Nat) (numIdxs : List Nat) :
    Except PError DataFrame :=
  match colIdx? (scaleSign df1 tipoIdx tcIdx numIdxs) "Fecha" with
  | none => Except.error (PError.keyError "Fecha")
  | some fIdx =>
      Except.ok (addTotals (formatFecha (scaleSign df1 tipoIdx tcIdx numIdxs) fIdx) numIdxs)

/-- Body of clean_data once the Moneda position m is known: scrub the
columns, find the Tipo column, and only when there is at least one numeric
column after the marker is the Tipo Cambio column required. -/
def cleanDataAfterMoneda (df : DataFrame) (m : Nat) : Except PError DataFrame :=
  match colIdx? (scrub df m) "Tipo" with
  | none => Except.error (PError.keyError "Tipo")
  | some tipoIdx =>
    match numericIdxs (scrub df m) m with
    | [] => cleanDataFinish (scrub df m) tipoIdx ((colIdx? (scrub df m) "Tipo Cambio").getD 0) []
    | j :: js =>
      match colIdx? (scrub df m) "Tipo Cambio" with
      | none => Except.error (PError.keyError "Tipo Cambio")
      | some tcIdx => cleanDataFinish (scrub df m) tipoIdx tcIdx (j :: js)

/-- ExcelProcessor.clean_data: requires the Moneda marker column, drops the
empty and all-zero columns after it, scales the numeric columns after it by
Tipo Cambio, flips still-positive amounts of credit-note rows, formats the
Fecha column, and appends the totals row. -/
def cleanData (df : DataFrame) : Except PError DataFrame :=
  match colIdx? df "Moneda" with
  | none => Except.error PError.missingMoneda
  | some m => cleanDataAfterMoneda df m

/-- A parsed calendar date. -/
structure PDate where
  day : Nat
  month : Nat
  year : Nat
deriving DecidableEq

/-- Days of a month, with the Gregorian leap rule, as datetime validates. -/
def daysInMonth (m y : Nat) : Nat :=
  if m = 2 then (if (y % 4 = 0 ∧ y % 100 ≠ 0) ∨ y % 400 = 0 then 29 else 28)
  else if m = 4 ∨ m = 6 ∨ m = 9 ∨ m = 11 then 30 else 31

/-- Splitting a character list at every slash, as splitOn does for the
single-character separator of the %d/%m/%Y format. -/
def splitOnSlash : List Char → List (List Char)
  | [] => [[]]
  | c :: t =>
    if c = '/' then [] :: splitOnSlash t
    else
      match splitOnSlash t with
      | [] => [[c]]
      | h :: r => (c :: h) :: r

/-- The numeric value of a digit run. -/
def digitsVal (l : List Char) : Nat :=
  l.foldl (fun acc c => acc * 10 + (c.toNat - Char.toNat '0')) 0

/-- Parsing a string in the %d/%m/%Y format of to_datetime: one or two day
digits, one or two month digits, four year digits, and the whole must be a
valid calendar date; anything else coerces to no date. -/
def parseDMY (s : String) : Option PDate :=
  match splitOnSlash s.data with
  | [ds, ms, ys] =>
    if 1 ≤ ds.length ∧ ds.length ≤ 2 ∧ ds.all Char.isDigit ∧
       1 ≤ ms.length ∧ ms.length ≤ 2 ∧ ms.all Char.isDigit ∧
       ys.length = 4 ∧ ys.all Char.isDigit then
      if 1 ≤ digitsVal ms ∧ digitsVal ms ≤ 12 ∧ 1 ≤ digitsVal ds ∧
         digitsVal ds ≤ daysInMonth (digitsVal ms) (digitsVal ys) then
        some ⟨digitsVal ds, digitsVal ms, digitsVal ys⟩
      else none
    else none
  | _ => none

/-- Elementwise date recovery of a Fecha cell: a datetime cell is kept, a
string cell is parsed with %d/%m/%Y, everything else coerces to no date. -/
def parseFecha : Cell → Option PDate
  | Cell.date d m y => some ⟨d, m, y⟩
  | Cell.str s => parseDMY s
  | _ => none

/-- The surviving dates of a Fecha column after coercion and dropna. -/
def validDates (col : List Cell) : List PDate := col.filterMap parseFecha

/-- The smallest value of maximal multiplicity in a list.  This renders both
value_counts().idxmax() and mode()[0] of detect_month: mode() returns its
modes sorted ascending, and value_counts() lists the small integer keys
ascending with a stable descending sort on counts, so each picks the
smallest value among those of maximal count. -/
def modeMin? (l : List Nat) : Option Nat :=
  (l.filter (fun x => l.all (fun y => decide (l.count y ≤ l.count x)))).min?

/-- The years, in row order, of the surviving rows that fall in the winning
month of the column. -/
def winningMonthYears (col : List Cell) : List Nat :=
  match modeMin? ((validDates col).map PDate.month) with
  | some m => ((validDates col).filter (fun d => d.month = m)).map PDate.year
  | none => []

/-- ExcelProcessor.detect_month on the Fecha column: parse the dates, drop
the failures, fail when none survive, then report the most frequent month
and the most frequent year among the rows of that month. -/
def detectMonth (col : List Cell) : Except PError (Nat × Nat) :=
  match modeMin? ((validDates col).map PDate.month) with
  | none => Except.error PError.noValidDates
  | some m =>
      Except.ok (m, (modeMin? (((validDates col).filter (fun d => d.month = m)).map PDate.year)).getD 0)

/-- detect_month on a whole frame: the Fecha column is looked up first and
its absence is a key error. -/
def detectMonthDF (df : DataFrame) : Except PError (Nat × Nat) :=
  match colIdx? df "Fecha" with
  | none => Except.error (PError.keyError "Fecha")
  | some f => detectMonth (getCol df f)

/-- ExcelProcessor.get_month_name: Spanish month names with a numeric fallback. -/
def getMonthName (m : Nat) : String :=
  match m with
  | 1 => "Enero" | 2 => "Febrero" | 3 => "Marzo" | 4 => "Abril"
  | 5 => "Mayo" | 6 => "Junio" | 7 => "Julio" | 8 => "Agosto"
  | 9 => "Septiembre" | 10 => "Octubre" | 11 => "Noviembre" | 12 => "Diciembre"
  | _ => toString m

/-- Modelled from the claim wording for the year tie-break: the first value
of maximal multiplicity in encounter order. -/
def specFirstModeEncountered (l : List Nat) : Option Nat :=
  l.find? (fun x => l.all (fun y => decide (l.count y ≤ l.count x)))

/-- Python word characters for the word boundaries of the regex. -/
def pyWordChar (c : Char) : Bool := c.isAlphanum || c = '_'

/-- Python whitespace for the regex. -/
def pySpace (c : Char) : Bool :=
  c = ' ' || c = '\t' || c = '\n' || c = '\r' || c = Char.ofNat 11 || c = Char.ofNat 12

/-- Taking exactly eleven leading digits, if present. -/
def digits11 (l : List Char) : Option (List Char) :=
  if (l.take 11).length = 11 ∧ (l.take 11).all Char.isDigit then some (l.take 11) else none

/-- The tail of the CUIT regex after the literal marker: optional
whitespace, an optional colon or dash, optional whitespace, then exactly
eleven digits are captured. -/
def cuitTail (l : List Char) : Option (List Char) :=
  match l.dropWhile pySpace with
  | c :: t => if c = ':' || c = '-' then digits11 (t.dropWhile pySpace) else digits11 (c :: t)
  | [] => digits11 []

/-- Leftmost match of the case-insensitive CUIT marker regex, capturing the
eleven digits that follow the marker. -/
def findCuitMarker : List Char → Option (List Char)
  | [] => none
  | c :: t =>
    if ((c :: t).take 4).map Char.toLower = ['c', 'u', 'i', 't'] then
      match cuitTail ((c :: t).drop 4) with
      | some d => some d
      | none => findCuitMarker t
    else findCuitMarker t

/-- Leftmost run of exactly eleven digits delimited by word boundaries; the
first argument carries the character before the current position. -/
def findBare11 : Option Char → List Char → Option (List Char)
  | _, [] => none
  | prev, c :: t =>
    if (match prev with | none => true | some p => ! pyWordChar p) &&
       (digits11 (c :: t)).isSome &&
       (match (c :: t).drop 11 with | [] => true | nx :: _ => ! pyWordChar nx) then
      digits11 (c :: t)
    else findBare11 (some c) t

/-- The CUIT extracted from a banner: an eleven-digit run after the CUIT
marker is preferred, otherwise a bare delimited eleven-digit run. -/
def cuitOf (h : String) : Option String :=
  match findCuitMarker h.data with
  | some d => some (String.mk d)
  | none => (findBare11 none h.data).map String.mk

/-- The ledger direction read from a banner: emitidos means ventas and
recibidos means compras, by case-insensitive containment. -/
def tipoOf (h : String) : Option String :=
  if containsSub (strLowerAscii h) "emitidos" then some "ventas"
  else if containsSub (strLowerAscii h) "recibidos" then some "compras"
  else none

/-- The header detection error message, echoing the banner text. -/
def headerErrMsg (h : String) : String :=
  "No se pudo detectar CUIT o tipo en el encabezado.\nEncabezado encontrado: \"" ++ h ++
  "\"\nAsegúrese de que la primera fila contenga algo como:\n\"Mis Comprobantes Emitidos - CUIT 30716820080\""

/-- ExcelProcessor.detect_info_from_header on the banner text: both the
CUIT and the direction must be found, else the error echoes the banner. -/
def detectInfoFromHeader (h : String) : Except PError (String × String) :=
  match cuitOf h, tipoOf h with
  | some c, some t => Except.ok (c, t)
  | _, _ => Except.error (PError.headerDetection (headerErrMsg h))

/-- The mutable state of an ExcelProcessor: the frame behind file_path and
the df attribute, None until read_excel runs. -/
structure ExcelProcessor where
  fileDF : DataFrame
  df : Option DataFrame
deriving DecidableEq

/-- ExcelProcessor.read_excel: loads the frame into the df attribute. -/
def readExcel (p : ExcelProcessor) : ExcelProcessor × DataFrame :=
  ({ p with df := some p.fileDF }, p.fileDF)

/-- clean_data as a method: reads the file when df is still None, then
works on a copy, leaving the df attribute untouched. -/
def cleanDataM (p : ExcelProcessor) : ExcelProcessor × Except PError DataFrame :=
  match p.df with
  | some d => (p, cleanData d)
  | none => ((readExcel p).1, cleanData (readExcel p).2)

/-- The summary record of process_excel_file. -/
structure ProcessSummary where
  month : Nat
  year : Nat
  monthName : String
  rowsProcessed : Nat
  columnsKept : Nat
deriving DecidableEq

/-- process_excel_file: detect the period, clean, and report the cleaned
row count net of the totals row. -/
def processExcelFile (df : DataFrame) : Except PError ProcessSummary :=
  match detectMonthDF df with
  | Except.error e => Except.error e
  | Except.ok (m, y) =>
    match cleanData df with
    | Except.error e => Except.error e
    | Except.ok c =>
      Except.ok ⟨m, y, getMonthName m, c.rows.length - 1, c.header.length⟩

/-- A yearly workbook: sheets in order, each a name with its table. -/
abbrev Workbook := List (String × DataFrame)

/-- The sheet names of a workbook. -/
def wbSheetNames (wb : Workbook) : List String := wb.map Prod.fst

/-- Result of ExcelProcessor.add_sheet_to_workbook: the string exists when
the sheet is already present, else the workbook with the placeholder
removed and the new sheet appended. -/
inductive AddSheetResult where
  | sheetAlready
  | added (wb : Workbook)
deriving DecidableEq

/-- ExcelProcessor.add_sheet_to_workbook on an open workbook: reports an
existing sheet name without touching the workbook, else removes the _temp
placeholder and appends the new sheet. -/
def addSheetToWorkbook (wb : Workbook) (name : String) (d : DataFrame) : AddSheetResult :=
  if (wbSheetNames wb).contains name then AddSheetResult.sheetAlready
  else AddSheetResult.added ((wb.filter (fun s => ! (s.1 = "_temp"))) ++ [(name, d)])

/-- The remote store keyed by client, tipo and year. -/
abbrev DriveKey := String × String × Nat

/-- The remote store: an association of keys to workbook blobs. -/
abbrev Store := List (DriveKey × Workbook)

/-- Lookup of the workbook stored under a key. -/
def storeGet (s : Store) (k : DriveKey) : Option Workbook :=
  match s with
  | [] => none
  | (k1, w) :: t => if k1 = k then some w else storeGet t k

/-- Replacing the workbook stored under a key. -/
def storeSet (s : Store) (k : DriveKey) (w : Workbook) : Store :=
  s.map (fun kv => if kv.1 = k then (k, w) else kv)

/-- The empty yearly workbook shell of create_year_file: a single _temp
placeholder sheet. -/
def newYearWorkbook : Workbook :=
  [("_temp", ⟨[], [[Cell.str "Archivo temporal - Esta pestaña se eliminará al agregar datos"]]⟩)]

/-- A merge request of the process endpoint: the target key data, the month
sheet name, the confirm-create flag, and the cleaned table to insert. -/
structure MergeReq where
  client : String
  tipo : String
  year : Nat
  monthNm : String
  confirmCreate : Bool
  dfClean : DataFrame
deriving DecidableEq

/-- The key of the yearly workbook a request addresses. -/
def mkKey (req : MergeReq) : DriveKey := (req.client, req.tipo, req.year)

/-- The outcome reported by the process endpoint. -/
inductive MergeOutcome where
  | needsConfirmation
  | duplicateMonth
  | merged (rowsProcessed : Nat)
deriving DecidableEq

/-- The merge protocol of the process endpoint, given an already cleaned
table: check for the yearly workbook, halt for confirmation when absent
and the flag is unset, else create it; then fetch it, insert the month
sheet, and only on success write the updated workbook back. -/
def processFile (store : Store) (req : MergeReq) : Store × MergeOutcome :=
  match storeGet store (mkKey req) with
  | none =>
    if req.confirmCreate then
      match addSheetToWorkbook newYearWorkbook req.monthNm req.dfClean with
      | AddSheetResult.sheetAlready => ((mkKey req, newYearWorkbook) :: store, MergeOutcome.duplicateMonth)
      | AddSheetResult.added wb1 =>
          (storeSet ((mkKey req, newYearWorkbook) :: store) (mkKey req) wb1,
           MergeOutcome.merged (req.dfClean.rows.length - 1))
    else (store, MergeOutcome.needsConfirmation)
  | some wb =>
    match addSheetToWorkbook wb req.monthNm req.dfClean with
    | AddSheetResult.sheetAlready => (store, MergeOutcome.duplicateMonth)
    | AddSheetResult.added wb1 =>
        (storeSet store (mkKey req) wb1, MergeOutcome.merged (req.dfClean.rows.length - 1))

/-- A small ledger frame: an invoice, a credit note with exchange rate 2,
and an invoice with an already negative amount, plus an all-zero column. -/
def sampleDF : DataFrame :=
  ⟨["Fecha", "Tipo", "Tipo Cambio", "Moneda", "Neto", "Zero", "IVA"],
   [[Cell.str "15/03/2021", Cell.str "1 - Factura A", Cell.num 1, Cell.str "PES", Cell.num 100, Cell.num 0, Cell.num 21],
    [Cell.str "16/03/2021", Cell.str "3 - Nota de Crédito A", Cell.num 2, Cell.str "PES", Cell.num 50, Cell.num 0, Cell.na],
    [Cell.str "17/04/2021", Cell.str "2 - Factura B", Cell.num 1, Cell.str "PES", Cell.num (-10), Cell.num 0, Cell.num 1]]⟩

/-- The cleaned form of sampleDF: zero column dropped, credit note scaled
to 100 and flipped to -100, the negative amount untouched, totals last. -/
def sampleClean : DataFrame :=
  ⟨["Fecha", "Tipo", "Tipo Cambio", "Moneda", "Neto", "IVA"],
   [[Cell.str "15/03/2021", Cell.str "1 - Factura A", Cell.num 1, Cell.str "PES", Cell.num 100, Cell.num 21],
    [Cell.str "16/03/2021", Cell.str "3 - Nota de Crédito A", Cell.num 2, Cell.str "PES", Cell.num (-100), Cell.na],
    [Cell.str "17/04/2021", Cell.str "2 - Factura B", Cell.num 1, Cell.str "PES", Cell.num (-10), Cell.num 1],
    [Cell.str "", Cell.str "", Cell.str "", Cell.str "", Cell.num (-10), Cell.num 22]]⟩

/-- The summary process_excel_file reports for sampleDF. -/
def sampleSummary : ProcessSummary := ⟨3, 2021, "Marzo", 3, 6⟩

/-- A frame with two extension columns after the marker, one all zero and
one with a single non-zero value. -/
def scenarioDF : DataFrame :=
  ⟨["Fecha", "Tipo", "Tipo Cambio", "Moneda", "ZeroCol", "SparseCol"],
   [[Cell.str "01/05/2022", Cell.str "1 - Factura A", Cell.num 1, Cell.str "PES", Cell.num 0, Cell.num 0],
    [Cell.str "02/05/2022", Cell.str "6 - Factura B", Cell.num 1, Cell.str "PES", Cell.num 0, Cell.num 7],
    [Cell.str "03/05/2022", Cell.str "1 - Factura A", Cell.num 1, Cell.str "PES", Cell.num 0, Cell.num 0]]⟩

/-- The cleaned form of scenarioDF: only the all-zero column is dropped. -/
def scenarioClean : DataFrame :=
  ⟨["Fecha", "Tipo", "Tipo Cambio", "Moneda", "SparseCol"],
   [[Cell.str "01/05/2022", Cell.str "1 - Factura A", Cell.num 1, Cell.str "PES", Cell.num 0],
    [Cell.str "02/05/2022", Cell.str "6 - Factura B", Cell.num 1, Cell.str "PES", Cell.num 7],
    [Cell.str "03/05/2022", Cell.str "1 - Factura A", Cell.num 1, Cell.str "PES", Cell.num 0],
    [Cell.str "", Cell.str "", Cell.str "", Cell.str "", Cell.num 7]]⟩

/-- A Fecha column with four March rows whose years tie (2021 first in row
order, 2020 the smaller mode) and one April row. -/
def c5Fechas : List Cell :=
  [Cell.str "15/03/2021", Cell.str "16/03/2020", Cell.str "17/03/2020",
   Cell.str "18/03/2021", Cell.str "19/04/2021"]

/-- The banner of the header-detection scenario. -/
def sampleBanner : String := "Mis Comprobantes Emitidos - CUIT 30716820080"

/-- A frame whose Fecha column has no parseable date. -/
def noDatesDF : DataFrame :=
  ⟨["Fecha", "Tipo", "Tipo Cambio", "Moneda"],
   [[Cell.str "garbage", Cell.str "1 - Factura A", Cell.num 1, Cell.str "PES"]]⟩

/-- A yearly workbook already holding a March sheet. -/
def wbMarzo : Workbook := [("Marzo", sampleClean)]

/-- A store holding the 2021 sales workbook of one client. -/
def dupStore : Store := [(("Acme", "ventas", 2021), wbMarzo)]

/-- A merge request for the month already present in dupStore. -/
def dupReq : MergeReq := ⟨"Acme", "ventas", 2021, "Marzo", false, sampleClean⟩

/-- A merge request against an empty store without the confirm flag. -/
def confReq : MergeReq := ⟨"Acme", "compras", 2024, "Enero", false, sampleClean⟩

/-- A processor whose file content is loaded. -/
def sampleProcessor : ExcelProcessor := ⟨sampleDF, some sampleDF⟩

/-- Row i of the scrubbed frame, the row the scaling loop works on. -/
def cleanRowIn (df : DataFrame) (m i : Nat) : List Cell := (scrub df m).rows.getD i []

/-- The post-scale value of cell (i, j): the cell times the Tipo Cambio
cell of its own row. -/
def scaledCell (df : DataFrame) (m tcIdx i j : Nat) : Cell :=
  mulCell (rowGet (cleanRowIn df m i) j) (rowGet (cleanRowIn df m i) tcIdx)

/-- Whether row i is recognised as a credit note by its Tipo field. -/
def isNCRow (df : DataFrame) (m tipoIdx i : Nat) : Bool :=
  isNotaCredito (cellToStr (rowGet (cleanRowIn df m i) tipoIdx))

/-!  Helper lemmas about list access and the pipeline stages. -/

theorem getD_range_map {α : Type} (f : Nat → α) (n j : Nat) (d : α) (h : j < n) :
    ((List.range n).map f).getD j d = f j := by
  rw [List.getD_eq_getElem?_getD, List.getElem?_map, List.getElem?_range h]
  rfl

theorem getD_range_map_ge {α : Type} (f : Nat → α) (n j : Nat) (d : α) (h : n ≤ j) :
    ((List.range n).map f).getD j d = d := by
  apply List.getD_eq_default
  simpa using h

theorem getD_map_lt {α β : Type} (g : α → β) (l : List α) (i : Nat) (d1 : β) (d2 : α)
    (h : i < l.length) : (l.map g).getD i d1 = g (l.getD i d2) := by
  rw [List.getD_eq_getElem?_getD, List.getD_eq_getElem?_getD, List.getElem?_map,
    List.getElem?_eq_getElem h]
  rfl

theorem scrub_rows_length (df : DataFrame) (m : Nat) :
    (scrub df m).rows.length = df.rows.length := by
  simp [scrub]

theorem scaleSign_rows_length (df : DataFrame) (t c : Nat) (N : List Nat) :
    (scaleSign df t c N).rows.length = df.rows.length := by
  simp [scaleSign]

theorem formatFecha_header (df : DataFrame) (f : Nat) :
    (formatFecha df f).header = df.header := by
  unfold formatFecha
  split <;> rfl

theorem formatFecha_rows_length (df : DataFrame) (f : Nat) :
    (formatFecha df f).rows.length = df.rows.length := by
  unfold formatFecha
  split
  · simp
  · rfl

theorem cleanData_ok_inv (df out : DataFrame) (h : cleanData df = Except.ok out) :
    ∃ m tipoIdx tcIdx fIdx,
      colIdx? df "Moneda" = some m ∧
      colIdx? (scrub df m) "Tipo" = some tipoIdx ∧
      (numericIdxs (scrub df m) m ≠ [] → colIdx? (scrub df m) "Tipo Cambio" = some tcIdx) ∧
      out = addTotals
              (formatFecha (scaleSign (scrub df m) tipoIdx tcIdx (numericIdxs (scrub df m) m)) fIdx)
              (numericIdxs (scrub df m) m) := by
  unfold cleanData at h
  split at h
  · exact Except.noConfusion h
  · rename_i m hm
    unfold cleanDataAfterMoneda at h
    split at h
    · exact Except.noConfusion h
    · rename_i tipoIdx ht
      split at h
      · rename_i hN
        unfold cleanDataFinish at h
        split at h
        · exact Except.noConfusion h
        · rename_i fIdx hf
          cases h
          refine ⟨m, tipoIdx, (colIdx? (scrub df m) "Tipo Cambio").getD 0, fIdx, hm, ht, ?_, ?_⟩
          · intro hne
            exact absurd hN hne
          · rw [hN]
      · rename_i j js hN
        split at h
        · exact Except.noConfusion h
        · rename_i tcIdx htc
          unfold cleanDataFinish at h
          split at h
          · exact Except.noConfusion h
          · rename_i fIdx hf
            cases h
            refine ⟨m, tipoIdx, tcIdx, fIdx, hm, ht, fun _ => htc, ?_⟩
            rw [hN]

theorem cleanData_rows_length (df out : DataFrame) (h : cleanData df = Except.ok out) :
    out.rows.length = df.rows.length + 1 := by
  obtain ⟨m, tipoIdx, tcIdx, fIdx, hm, ht, htc, hout⟩ := cleanData_ok_inv df out h
  subst hout
  simp [addTotals, formatFecha_rows_length, scaleSign_rows_length, scrub_rows_length]

/-!  Claim theorems. -/

/-- C10: the cleaned output has exactly one more row than the input (the
single appended totals row), so the rows_processed count reported by
process_excel_file equals the number of input data rows. -/
theorem cleaned_row_count :
    (∀ df out, cleanData df = Except.ok out → out.rows.length = df.rows.length + 1) ∧
    (∀ df s, processExcelFile df = Except.ok s → s.rowsProcessed = df.rows.length) := by
  refine ⟨cleanData_rows_length, ?_⟩
  intro df s h
  unfold processExcelFile at h
  split at h
  · exact Except.noConfusion h
  · rename_i p m y hd
    split at h
    · exact Except.noConfusion h
    · rename_i c hc
      cases h
      simp [cleanData_rows_length df c hc]

set_option maxRecDepth 10000 in
/-- Witness for C10 at the sample ledger: four cleaned rows from three data
rows, and a reported count of three. -/
theorem cleaned_row_count_witness :
    sampleClean.rows.length = sampleDF.rows.length + 1 ∧
    sampleSummary.rowsProcessed = sampleDF.rows.length :=
  ⟨cleaned_row_count.1 sampleDF sampleClean (by with_unfolding_all decide),
   cleaned_row_count.2 sampleDF sampleSummary (by with_unfolding_all decide)⟩

/-- C6: when the yearly workbook is absent and the confirm-create flag is
unset, the merge halts with the confirmation signal and the store is not
written at all. -/
theorem absent_workbook_confirmation_gate (store : Store) (req : MergeReq)
    (h1 : storeGet store (mkKey req) = none) (h2 : req.confirmCreate = false) :
    processFile store req = (store, MergeOutcome.needsConfirmation) := by
  unfold processFile
  rw [h1, h2]
  simp

/-- Witness for C6: an empty store and an unconfirmed request. -/
theorem absent_workbook_confirmation_gate_witness :
    processFile [] confReq = ([], MergeOutcome.needsConfirmation) :=
  absent_workbook_confirmation_gate [] confReq (by decide) (by decide)

theorem storeGet_storeSet_some (s : Store) (k : DriveKey) (w0 w : Workbook)
    (h : storeGet s k = some w0) : storeGet (storeSet s k w) k = some w := by
  induction s with
  | nil => exact Option.noConfusion h
  | cons kv t ih =>
    obtain ⟨k1, w1⟩ := kv
    have hset : storeSet ((k1, w1) :: t) k w =
        (if k1 = k then (k, w) else (k1, w1)) :: storeSet t k w := rfl
    by_cases hk : k1 = k
    · rw [hset, if_pos hk]
      rw [show storeGet ((k, w) :: storeSet t k w) k
            = if k = k then some w else storeGet (storeSet t k w) k from rfl, if_pos rfl]
    · rw [hset, if_neg hk]
      have h1 : storeGet t k = some w0 := by
        rw [show storeGet ((k1, w1) :: t) k = if k1 = k then some w1 else storeGet t k from rfl,
          if_neg hk] at h
        exact h
      rw [show storeGet ((k1, w1) :: storeSet t k w) k
            = if k1 = k then some w1 else storeGet (storeSet t k w) k from rfl, if_neg hk]
      exact ih h1

theorem monthNm_mem_added (wb : Workbook) (name : String) (d : DataFrame) :
    name ∈ wbSheetNames ((wb.filter (fun s => ! (s.1 = "_temp"))) ++ [(name, d)]) := by
  simp [wbSheetNames]

theorem processFile_merged_inv (store s1 : Store) (req : MergeReq) (n : Nat)
    (h : processFile store req = (s1, MergeOutcome.merged n)) :
    ∃ wb1, storeGet s1 (mkKey req) = some wb1 ∧ req.monthNm ∈ wbSheetNames wb1 := by
  unfold processFile at h
  split at h
  · split at h
    · split at h
      · have := congrArg Prod.snd h
        simp at this
      · rename_i wb1 hadd
        have h1 := congrArg Prod.fst h
        simp only [Prod.fst] at h1
        unfold addSheetToWorkbook at hadd
        split at hadd
        · exact AddSheetResult.noConfusion hadd
        · cases hadd
          refine ⟨_, ?_, monthNm_mem_added newYearWorkbook req.monthNm req.dfClean⟩
          rw [← h1]
          apply storeGet_storeSet_some _ _ newYearWorkbook
          rw [show storeGet ((mkKey req, newYearWorkbook) :: store) (mkKey req)
                = if mkKey req = mkKey req then some newYearWorkbook
                  else storeGet store (mkKey req) from rfl, if_pos rfl]
    · have := congrArg Prod.snd h
      simp at this
  · rename_i wb hsome
    split at h
    · have := congrArg Prod.snd h
      simp at this
    · rename_i wb1 hadd
      have h1 := congrArg Prod.fst h
      simp only [Prod.fst] at h1
      unfold addSheetToWorkbook at hadd
      split at hadd
      · exact AddSheetResult.noConfusion hadd
      · cases hadd
        refine ⟨_, ?_, monthNm_mem_added wb req.monthNm req.dfClean⟩
        rw [← h1]
        exact storeGet_storeSet_some store (mkKey req) wb _ hsome

/-- C2: a merge whose month sheet already exists in the fetched workbook is
rejected as a duplicate before any write, leaving the store untouched; in
particular a second merge of a just-merged request is rejected and leaves
the store as the first merge left it. -/
theorem duplicate_month_merge_rejected :
    (∀ (store : Store) (req : MergeReq) (wb : Workbook),
       storeGet store (mkKey req) = some wb →
       req.monthNm ∈ wbSheetNames wb →
       processFile store req = (store, MergeOutcome.duplicateMonth)) ∧
    (∀ (store s1 : Store) (req : MergeReq) (n : Nat),
       processFile store req = (s1, MergeOutcome.merged n) →
       processFile s1 req = (s1, MergeOutcome.duplicateMonth)) := by
  have part1 : ∀ (store : Store) (req : MergeReq) (wb : Workbook),
      storeGet store (mkKey req) = some wb →
      req.monthNm ∈ wbSheetNames wb →
      processFile store req = (store, MergeOutcome.duplicateMonth) := by
    intro store req wb hw hmem
    unfold processFile
    rw [hw]
    simp [addSheetToWorkbook, hmem]
  refine ⟨part1, ?_⟩
  intro store s1 req n h
  obtain ⟨wb1, hget, hmem⟩ := processFile_merged_inv store s1 req n h
  exact part1 s1 req wb1 hget hmem

/-- Witness for C2: a store whose 2021 sales workbook already holds the
March sheet rejects the March merge and is left unchanged. -/
theorem duplicate_month_merge_rejected_witness :
    processFile dupStore dupReq = (dupStore, MergeOutcome.duplicateMonth) :=
  duplicate_month_merge_rejected.1 dupStore dupReq wbMarzo (by decide) (by decide)

/-- C7: clean_data works on a copy, so the loaded frame of the processor is
unchanged and a second call returns the same table, scaled once from the
same pristine input. -/
theorem clean_data_preserves_state (p : ExcelProcessor) (d : DataFrame) (h : p.df = some d) :
    cleanDataM p = (p, cleanData d) ∧ cleanDataM (cleanDataM p).1 = cleanDataM p := by
  simp [cleanDataM, h]

/-- Witness for C7 at the loaded sample processor. -/
theorem clean_data_preserves_state_witness :
    cleanDataM sampleProcessor = (sampleProcessor, cleanData sampleDF) ∧
    cleanDataM (cleanDataM sampleProcessor).1 = cleanDataM sampleProcessor :=
  clean_data_preserves_state sampleProcessor sampleDF rfl

theorem modeMin?_spec (l : List Nat) (hl : l ≠ []) :
    ∃ x, modeMin? l = some x ∧ x ∈ l ∧ (∀ y ∈ l, l.count y ≤ l.count x) ∧
      (∀ y ∈ l, l.count x ≤ l.count y → x ≤ y) := by
  obtain ⟨a, ha⟩ : ∃ a, l.argmax (fun x => l.count x) = some a := by
    rcases hh : l.argmax (fun x => l.count x) with _ | a
    · rw [List.argmax_eq_none] at hh
      exact absurd hh hl
    · exact ⟨a, rfl⟩
  have hamem : a ∈ l := List.argmax_mem ha
  have hmax : ∀ y ∈ l, l.count y ≤ l.count a := fun y hy =>
    Nat.le_of_not_lt (List.not_lt_of_mem_argmax hy ha)
  have hafilter : a ∈ l.filter (fun x => l.all (fun y => decide (l.count y ≤ l.count x))) := by
    rw [List.mem_filter]
    exact ⟨hamem, by simpa [List.all_eq_true] using hmax⟩
  obtain ⟨x, hx⟩ :
      ∃ x, (l.filter (fun x => l.all (fun y => decide (l.count y ≤ l.count x)))).min? = some x := by
    rcases hF : l.filter (fun x => l.all (fun y => decide (l.count y ≤ l.count x))) with _ | ⟨b, t⟩
    · rw [hF] at hafilter
      exact absurd hafilter (List.not_mem_nil a)
    · exact ⟨_, rfl⟩
  obtain ⟨hxf, hxmin⟩ :=
    (List.min?_eq_some_iff (fun a => Nat.le_refl a) (fun a b => by omega)
      (fun a b c => by omega)).mp hx
  rw [List.mem_filter] at hxf
  obtain ⟨hxl, hxp⟩ := hxf
  have hxmax : ∀ y ∈ l, l.count y ≤ l.count x := by
    intro y hy
    simpa using List.all_eq_true.mp hxp y hy
  refine ⟨x, hx, hxl, hxmax, ?_⟩
  intro y hy hcy
  have hymax : ∀ z ∈ l, l.count z ≤ l.count y := fun z hz => le_trans (hxmax z hz) hcy
  have hyf : y ∈ l.filter (fun x => l.all (fun y2 => decide (l.count y2 ≤ l.count x))) := by
    rw [List.mem_filter]
    exact ⟨hy, by simpa [List.all_eq_true] using hymax⟩
  exact hxmin y hyf

/-- C9: detect_month drops unparseable dates and fails with the
no-valid-dates error exactly when no parsed date survives, and a period
error in process_excel_file propagates, so no cleaned output is produced. -/
theorem no_valid_dates_iff :
    (∀ col, detectMonth col = Except.error PError.noValidDates ↔ validDates col = []) ∧
    (∀ df e, detectMonthDF df = Except.error e → processExcelFile df = Except.error e) := by
  constructor
  · intro col
    constructor
    · intro h
      by_contra hne
      obtain ⟨x, hx, _⟩ := modeMin?_spec ((validDates col).map PDate.month) (by simpa using hne)
      unfold detectMonth at h
      rw [hx] at h
      exact Except.noConfusion h
    · intro h
      have hm : modeMin? ((validDates col).map PDate.month) = none := by
        rw [h]
        rfl
      unfold detectMonth
      rw [hm]
  · intro df e h
    unfold processExcelFile
    rw [h]

/-- Witness for C9: a single unparseable date yields the no-valid-dates
error and the whole processing run fails with it. -/
theorem no_valid_dates_iff_witness :
    detectMonth [Cell.str "garbage"] = Except.error PError.noValidDates ∧
    processExcelFile noDatesDF = Except.error PError.noValidDates :=
  ⟨(no_valid_dates_iff.1 [Cell.str "garbage"]).mpr (by decide),
   no_valid_dates_iff.2 noDatesDF PError.noValidDates (by decide)⟩

/-- C5 counterexample: four March rows with years 2021, 2020, 2020, 2021 in
that order.  The claim predicts the first-encountered mode 2021 as year,
but detect_month picks 2020, because mode() returns its modes sorted
ascending and the code takes the first one. -/
theorem detect_month_year_tie_counterexample :
    detectMonth c5Fechas = Except.ok (3, 2020) ∧
    winningMonthYears c5Fechas = [2021, 2020, 2020, 2021] ∧
    specFirstModeEncountered (winningMonthYears c5Fechas) = some 2021 ∧
    (2020 : Nat) ≠ 2021 :=
  ⟨by decide, by decide, by decide, by decide⟩

/-- C5 (amended): detect_month returns the month of maximal row count,
ties broken towards the smaller month, and the year of maximal count among
the winning-month rows, ties broken towards the smaller year. -/
theorem detect_month_mode_amended (col : List Cell) (h : validDates col ≠ []) :
    ∃ m y, detectMonth col = Except.ok (m, y) ∧
      m ∈ (validDates col).map PDate.month ∧
      (∀ m2 ∈ (validDates col).map PDate.month,
        ((validDates col).map PDate.month).count m2 ≤ ((validDates col).map PDate.month).count m) ∧
      (∀ m2 ∈ (validDates col).map PDate.month,
        ((validDates col).map PDate.month).count m ≤ ((validDates col).map PDate.month).count m2 →
          m ≤ m2) ∧
      y ∈ winningMonthYears col ∧
      (∀ y2 ∈ winningMonthYears col,
        (winningMonthYears col).count y2 ≤ (winningMonthYears col).count y) ∧
      (∀ y2 ∈ winningMonthYears col,
        (winningMonthYears col).count y ≤ (winningMonthYears col).count y2 → y ≤ y2) := by
  obtain ⟨m, hm, hmem, hmax, hmin⟩ :=
    modeMin?_spec ((validDates col).map PDate.month) (by simpa using h)
  obtain ⟨d0, hd0l, hd0m⟩ : ∃ d ∈ validDates col, d.month = m := by
    obtain ⟨d, hd, hdm⟩ := List.mem_map.mp hmem
    exact ⟨d, hd, hdm⟩
  have hd0f : d0 ∈ (validDates col).filter (fun d => d.month = m) := by
    rw [List.mem_filter]
    exact ⟨hd0l, by simpa using hd0m⟩
  have hyne : ((validDates col).filter (fun d => d.month = m)).map PDate.year ≠ [] :=
    List.ne_nil_of_mem (List.mem_map_of_mem PDate.year hd0f)
  obtain ⟨y, hy, hymem, hymax, hymin⟩ := modeMin?_spec _ hyne
  have hwin : winningMonthYears col
      = ((validDates col).filter (fun d => d.month = m)).map PDate.year := by
    unfold winningMonthYears
    rw [hm]
  have hres : detectMonth col
      = Except.ok (m, (modeMin? (((validDates col).filter (fun d => d.month = m)).map PDate.year)).getD 0) := by
    unfold detectMonth
    rw [hm]
  refine ⟨m, y, ?_, hmem, hmax, hmin, ?_, ?_, ?_⟩
  · rw [hres, hy]
    rfl
  · rw [hwin]
    exact hymem
  · rw [hwin]
    exact hymax
  · rw [hwin]
    exact hymin

/-- Witness for the amended C5 at the concrete tie column: detect_month
reports March with the smaller mode year 2020 of the March rows. -/
theorem detect_month_mode_amended_witness :
    ∃ m y, detectMonth c5Fechas = Except.ok (m, y) ∧
      m ∈ (validDates c5Fechas).map PDate.month ∧
      (∀ m2 ∈ (validDates c5Fechas).map PDate.month,
        ((validDates c5Fechas).map PDate.month).count m2
          ≤ ((validDates c5Fechas).map PDate.month).count m) ∧
      (∀ m2 ∈ (validDates c5Fechas).map PDate.month,
        ((validDates c5Fechas).map PDate.month).count m
          ≤ ((validDates c5Fechas).map PDate.month).count m2 → m ≤ m2) ∧
      y ∈ winningMonthYears c5Fechas ∧
      (∀ y2 ∈ winningMonthYears c5Fechas,
        (winningMonthYears c5Fechas).count y2 ≤ (winningMonthYears c5Fechas).count y) ∧
      (∀ y2 ∈ winningMonthYears c5Fechas,
        (winningMonthYears c5Fechas).count y ≤ (winningMonthYears c5Fechas).count y2 → y ≤ y2) :=
  detect_month_mode_amended c5Fechas (by decide)

/-- C4: clean_data drops a column after the Moneda marker exactly when it
is entirely NaN or entirely numeric zero; columns up to and including the
marker always survive. -/
theorem scrub_drops_extension_columns (df : DataFrame) (m : Nat) (out : DataFrame)
    (hm : colIdx? df "Moneda" = some m) (hok : cleanData df = Except.ok out) :
    out.header = (scrubIdxs df m).map (fun j => df.header.getD j "") ∧
    ∀ j, j ∈ scrubIdxs df m ↔
      (j < df.header.length ∧
        (j ≤ m ∨ ¬ ((getCol df j).all Cell.isNA = true ∨
                    (getCol df j).all (fun c => decide (c = Cell.num 0)) = true))) := by
  obtain ⟨m2, tipoIdx, tcIdx, fIdx, hm2, ht, htc, hout⟩ := cleanData_ok_inv df out hok
  rw [hm] at hm2
  cases hm2
  constructor
  · rw [hout]
    simp [addTotals, formatFecha_header, scaleSign, scrub]
  · intro j
    simp only [scrubIdxs, keepIdx, dropColPred, List.mem_filter, List.mem_range,
      Bool.or_eq_true, decide_eq_true_eq, Bool.not_eq_true', Bool.or_eq_false_iff]
    constructor
    · rintro ⟨hr, hj | ⟨ha, hb⟩⟩
      · exact ⟨hr, Or.inl hj⟩
      · exact ⟨hr, Or.inr (by simp [ha, hb])⟩
    · rintro ⟨hr, hj | hnd⟩
      · exact ⟨hr, Or.inl hj⟩
      · refine ⟨hr, Or.inr ?_⟩
        constructor
        · cases hA : (getCol df j).all Cell.isNA
          · rfl
          · exact absurd (Or.inl hA) hnd
        · cases hB : (getCol df j).all (fun c => decide (c = Cell.num 0))
          · rfl
          · exact absurd (Or.inr hB) hnd

set_option maxRecDepth 10000 in
/-- Witness for C4 at the scenario frame: the trailing all-zero column is
dropped, the trailing column with one non-zero value is kept, and every
column through the marker is kept. -/
theorem scrub_drops_extension_columns_witness :
    scenarioClean.header = (scrubIdxs scenarioDF 3).map (fun j => scenarioDF.header.getD j "") ∧
    ∀ j, j ∈ scrubIdxs scenarioDF 3 ↔
      (j < scenarioDF.header.length ∧
        (j ≤ 3 ∨ ¬ ((getCol scenarioDF j).all Cell.isNA = true ∨
                    (getCol scenarioDF j).all (fun c => decide (c = Cell.num 0)) = true))) :=
  scrub_drops_extension_columns scenarioDF 3 scenarioClean (by decide)
    (by with_unfolding_all decide)

/-- C3: the cleaned table is the scaled data rows followed by exactly one
totals row holding the column sum in every retained numeric column after
the marker and the empty string everywhere else; the totals row is
computed from the already scaled rows and appended last. -/
theorem totals_row_appended (df : DataFrame) (m : Nat) (out : DataFrame)
    (hm : colIdx? df "Moneda" = some m) (hok : cleanData df = Except.ok out) :
    ∃ body, out.rows = body ++
        [(List.range out.header.length).map
          (fun j => if (numericIdxs (scrub df m) m).contains j then
              Cell.num ((body.map (fun r => cellQ (rowGet r j))).sum)
            else Cell.str "")] ∧
      body.length = df.rows.length ∧
      ∀ j ∈ numericIdxs (scrub df m) m,
        m < j ∧ isNumericCol (getCol (scrub df m) j) = true ∧ j < (scrub df m).header.length := by
  obtain ⟨m2, tipoIdx, tcIdx, fIdx, hm2, ht, htc, hout⟩ := cleanData_ok_inv df out hok
  rw [hm] at hm2
  cases hm2
  refine ⟨(formatFecha (scaleSign (scrub df m) tipoIdx tcIdx (numericIdxs (scrub df m) m)) fIdx).rows,
    ?_, ?_, ?_⟩
  · rw [hout]
    show _ ++ [totalsRow _ _] = _
    congr 1
    simp only [totalsRow, colSumQ, getCol, List.map_map, addTotals]
    rfl
  · simp [formatFecha_rows_length, scaleSign_rows_length, scrub_rows_length]
  · intro j hj
    unfold numericIdxs at hj
    obtain ⟨hjr, hjp⟩ := List.mem_filter.mp hj
    obtain ⟨hj1, hj2⟩ : decide (m < j) = true ∧ isNumericCol (getCol (scrub df m) j) = true := by
      simpa using hjp
    exact ⟨by simpa using hj1, hj2, List.mem_range.mp hjr⟩

set_option maxRecDepth 10000 in
/-- Witness for C3 at the sample ledger: the totals row sums the scaled
Neto column to -10 and the IVA column to 22 and is blank elsewhere. -/
theorem totals_row_appended_witness :
    ∃ body, sampleClean.rows = body ++
        [(List.range sampleClean.header.length).map
          (fun j => if (numericIdxs (scrub sampleDF 3) 3).contains j then
              Cell.num ((body.map (fun r => cellQ (rowGet r j))).sum)
            else Cell.str "")] ∧
      body.length = sampleDF.rows.length ∧
      ∀ j ∈ numericIdxs (scrub sampleDF 3) 3,
        3 < j ∧ isNumericCol (getCol (scrub sampleDF 3) j) = true ∧
          j < (scrub sampleDF 3).header.length :=
  totals_row_appended sampleDF 3 sampleClean (by decide) (by with_unfolding_all decide)

theorem fmtDateCell_eq_self (c : Cell) (h : c.isDateCell = false) : fmtDateCell c = c := by
  cases c <;> simp_all [fmtDateCell, Cell.isDateCell]

theorem mulCell_not_date (a b : Cell) : (mulCell a b).isDateCell = false := by
  cases a <;> cases b <;> rfl

theorem negCell_not_date (c : Cell) (h : c.isDateCell = false) : (negCell c).isDateCell = false := by
  cases c <;> simp_all [negCell, Cell.isDateCell]

theorem scaleRow_cell (tipoIdx tcIdx : Nat) (N : List Nat) (r : List Cell) (j : Nat)
    (hj : N.contains j = true) :
    rowGet (scaleRow tipoIdx tcIdx N r) j =
      (if isNotaCredito (cellToStr (rowGet r tipoIdx)) &&
          cellPos (mulCell (rowGet r j) (rowGet r tcIdx)) then
        negCell (mulCell (rowGet r j) (rowGet r tcIdx))
      else mulCell (rowGet r j) (rowGet r tcIdx)) := by
  by_cases hlt : j < r.length
  · show (scaleRow tipoIdx tcIdx N r).getD j Cell.na = _
    unfold scaleRow
    rw [getD_range_map _ _ _ _ hlt]
    show (if N.contains j = true then
        (if isNotaCredito (cellToStr (rowGet r tipoIdx)) &&
            cellPos (mulCell (rowGet r j) (rowGet r tcIdx)) then
          negCell (mulCell (rowGet r j) (rowGet r tcIdx))
        else mulCell (rowGet r j) (rowGet r tcIdx))
      else rowGet r j) = _
    rw [if_pos hj]
  · push_neg at hlt
    have h1 : (scaleRow tipoIdx tcIdx N r).getD j Cell.na = Cell.na := by
      unfold scaleRow
      exact getD_range_map_ge _ _ _ _ hlt
    have h2 : rowGet r j = Cell.na := List.getD_eq_default _ _ hlt
    show (scaleRow tipoIdx tcIdx N r).getD j Cell.na = _
    rw [h1, h2]
    simp [mulCell, cellPos]

theorem formatFecha_cell_nondate (d : DataFrame) (f i j : Nat) (hi : i < d.rows.length)
    (hnd : (rowGet (d.rows.getD i []) j).isDateCell = false) :
    rowGet ((formatFecha d f).rows.getD i []) j = rowGet (d.rows.getD i []) j := by
  unfold formatFecha
  split
  · show rowGet ((d.rows.map _).getD i []) j = _
    rw [getD_map_lt _ _ _ _ [] hi]
    by_cases hlt : j < (d.rows.getD i []).length
    · show ((List.range _).map _).getD j Cell.na = _
      rw [getD_range_map _ _ _ _ hlt]
      by_cases hjf : j = f
      · rw [if_pos hjf]
        exact fmtDateCell_eq_self _ hnd
      · rw [if_neg hjf]
    · push_neg at hlt
      show ((List.range _).map _).getD j Cell.na = _
      rw [getD_range_map_ge _ _ _ _ hlt]
      exact (List.getD_eq_default _ _ hlt).symm
  · rfl

/-- C1: in the cleaned output, a cell of a retained numeric column after
the marker holds the scaled value, negated exactly when the Tipo field
matches the credit-note pattern and the scaled value is still positive;
rows that are not credit notes and scaled values that are not positive
(already negative, zero or NaN) are never sign-flipped. -/
theorem credit_note_sign_flip (df : DataFrame) (m tipoIdx tcIdx : Nat) (out : DataFrame)
    (hm : colIdx? df "Moneda" = some m)
    (ht : colIdx? (scrub df m) "Tipo" = some tipoIdx)
    (htc : colIdx? (scrub df m) "Tipo Cambio" = some tcIdx)
    (hok : cleanData df = Except.ok out)
    (j : Nat) (hj : j ∈ numericIdxs (scrub df m) m) (i : Nat) (hi : i < df.rows.length) :
    rowGet (out.rows.getD i []) j =
      (if isNCRow df m tipoIdx i && cellPos (scaledCell df m tcIdx i j) then
        negCell (scaledCell df m tcIdx i j)
      else scaledCell df m tcIdx i j) ∧
    (isNCRow df m tipoIdx i = false →
      rowGet (out.rows.getD i []) j = scaledCell df m tcIdx i j) ∧
    (cellPos (scaledCell df m tcIdx i j) = false →
      rowGet (out.rows.getD i []) j = scaledCell df m tcIdx i j) ∧
    (isNCRow df m tipoIdx i = true → cellPos (scaledCell df m tcIdx i j) = true →
      rowGet (out.rows.getD i []) j = negCell (scaledCell df m tcIdx i j)) := by
  obtain ⟨m2, tipoIdx2, tcIdx2, fIdx, hm2, ht2, htc2, hout⟩ := cleanData_ok_inv df out hok
  rw [hm] at hm2
  cases hm2
  rw [ht] at ht2
  cases ht2
  have hNne : numericIdxs (scrub df m) m ≠ [] := List.ne_nil_of_mem hj
  have htc3 := htc2 hNne
  rw [htc] at htc3
  cases htc3
  have hcontains : (numericIdxs (scrub df m) m).contains j = true := by
    simpa [List.elem_iff] using hj
  have hi1 : i < (scrub df m).rows.length := by
    rw [scrub_rows_length]
    exact hi
  have hi2 : i < (scaleSign (scrub df m) tipoIdx tcIdx (numericIdxs (scrub df m) m)).rows.length := by
    rw [scaleSign_rows_length]
    exact hi1
  have hrow : out.rows.getD i []
      = (formatFecha (scaleSign (scrub df m) tipoIdx tcIdx (numericIdxs (scrub df m) m)) fIdx).rows.getD i [] := by
    rw [hout]
    show ((formatFecha _ _).rows ++ [totalsRow _ _]).getD i [] = _
    exact List.getD_append _ _ _ _ (by rw [formatFecha_rows_length]; exact hi2)
  have hscale : rowGet ((scaleSign (scrub df m) tipoIdx tcIdx (numericIdxs (scrub df m) m)).rows.getD i []) j
      = (if isNCRow df m tipoIdx i && cellPos (scaledCell df m tcIdx i j) then
          negCell (scaledCell df m tcIdx i j)
        else scaledCell df m tcIdx i j) := by
    show rowGet (((scrub df m).rows.map (scaleRow tipoIdx tcIdx (numericIdxs (scrub df m) m))).getD i []) j = _
    rw [getD_map_lt _ _ _ _ [] hi1]
    rw [scaleRow_cell _ _ _ _ _ hcontains]
    rfl
  have hnd : (rowGet ((scaleSign (scrub df m) tipoIdx tcIdx (numericIdxs (scrub df m) m)).rows.getD i []) j).isDateCell = false := by
    rw [hscale]
    split
    · exact negCell_not_date _ (mulCell_not_date _ _)
    · exact mulCell_not_date _ _
  have hfmt := formatFecha_cell_nondate
    (scaleSign (scrub df m) tipoIdx tcIdx (numericIdxs (scrub df m) m)) fIdx i j hi2 hnd
  have hmain : rowGet (out.rows.getD i []) j
      = (if isNCRow df m tipoIdx i && cellPos (scaledCell df m tcIdx i j) then
          negCell (scaledCell df m tcIdx i j)
        else scaledCell df m tcIdx i j) := by
    rw [hrow, hfmt, hscale]
  refine ⟨hmain, ?_, ?_, ?_⟩
  · intro hnc
    rw [hmain, hnc]
    simp
  · intro hpos
    rw [hmain, hpos]
    simp
  · intro h1 h2
    rw [hmain, h1, h2]
    simp

set_option maxRecDepth 10000 in
/-- Witness for C1 at the credit-note row of the sample ledger: the scaled
value 50 times 2 is positive, so the output cell is its negation -100. -/
theorem credit_note_sign_flip_witness :
    rowGet (sampleClean.rows.getD 1 []) 4 = negCell (scaledCell sampleDF 3 2 1 4) ∧
    negCell (scaledCell sampleDF 3 2 1 4) = Cell.num (-100) :=
  ⟨(credit_note_sign_flip sampleDF 3 1 2 sampleClean (by decide) (by decide) (by decide)
      (by with_unfolding_all decide) 4 (by decide) 1 (by decide)).2.2.2
      (by decide) (by with_unfolding_all decide),
   by with_unfolding_all decide⟩

theorem digits11_spec (l d : List Char) (h : digits11 l = some d) :
    d.length = 11 ∧ d.all Char.isDigit = true := by
  unfold digits11 at h
  split at h
  · rename_i hcond
    cases h
    exact hcond
  · exact Option.noConfusion h

theorem cuitTail_spec (l : List Char) (d : List Char) (h : cuitTail l = some d) :
    d.length = 11 ∧ d.all Char.isDigit = true := by
  unfold cuitTail at h
  split at h
  · split at h
    · exact digits11_spec _ _ h
    · exact digits11_spec _ _ h
  · exact digits11_spec _ _ h

theorem findCuitMarker_spec (l : List Char) (d : List Char) (h : findCuitMarker l = some d) :
    d.length = 11 ∧ d.all Char.isDigit = true := by
  induction l with
  | nil => exact Option.noConfusion h
  | cons c t ih =>
    unfold findCuitMarker at h
    split at h
    · split at h
      · rename_i d2 hct
        cases h
        exact cuitTail_spec _ _ hct
      · exact ih h
    · exact ih h

theorem findBare11_spec (prev : Option Char) (l : List Char) (d : List Char)
    (h : findBare11 prev l = some d) : d.length = 11 ∧ d.all Char.isDigit = true := by
  induction l generalizing prev with
  | nil => exact Option.noConfusion h
  | cons c t ih =>
    unfold findBare11 at h
    split at h
    · exact digits11_spec _ _ h
    · exact ih _ h

theorem isPrefixOf_append_self (p ys : List Char) : p.isPrefixOf (p ++ ys) = true := by
  induction p with
  | nil => simp [List.isPrefixOf]
  | cons a t ih => simp [List.isPrefixOf, ih]

theorem subAux_append_self (p ys : List Char) : ∀ xs : List Char, subAux p (xs ++ (p ++ ys)) = true := by
  intro xs
  induction xs with
  | nil =>
    show subAux p (p ++ ys) = true
    cases hp : p with
    | nil =>
      cases ys with
      | nil => rfl
      | cons y t => simp [subAux, List.isPrefixOf]
    | cons a t =>
      show subAux (a :: t) ((a :: t) ++ ys) = true
      simp [subAux, isPrefixOf_append_self]
  | cons x xs2 ih =>
    show subAux p (x :: (xs2 ++ (p ++ ys))) = true
    simp [subAux, ih]

theorem containsSub_mid (a h b : String) : containsSub (a ++ h ++ b) h = true := by
  unfold containsSub
  rw [String.data_append, String.data_append, List.append_assoc]
  exact subAux_append_self _ _ _

/-- C8: detect_info_from_header extracts an eleven-digit CUIT, preferring a
run after the CUIT marker over a bare delimited run, maps emitidos to
ventas and recibidos to compras by case-insensitive containment, and
raises the header-detection error, echoing the banner, exactly when the
CUIT or the direction cannot be determined. -/
theorem header_detection (h : String) :
    ((∃ e, detectInfoFromHeader h = Except.error e) ↔ (cuitOf h = none ∨ tipoOf h = none)) ∧
    (∀ msg, detectInfoFromHeader h = Except.error (PError.headerDetection msg) →
      containsSub msg h = true) ∧
    (∀ c t, detectInfoFromHeader h = Except.ok (c, t) →
      c.length = 11 ∧ c.data.all Char.isDigit = true ∧ (t = "ventas" ∨ t = "compras")) ∧
    (∀ d, findCuitMarker h.data = some d → ∀ t, tipoOf h = some t →
      detectInfoFromHeader h = Except.ok (String.mk d, t)) ∧
    (findCuitMarker h.data = none → ∀ d, findBare11 none h.data = some d → ∀ t, tipoOf h = some t →
      detectInfoFromHeader h = Except.ok (String.mk d, t)) ∧
    (containsSub (strLowerAscii h) "emitidos" = true → tipoOf h = some "ventas") ∧
    (containsSub (strLowerAscii h) "emitidos" = false →
      containsSub (strLowerAscii h) "recibidos" = true → tipoOf h = some "compras") := by
  refine ⟨⟨?_, ?_⟩, ?_, ?_, ?_, ?_, ?_, ?_⟩
  · rintro ⟨e, he⟩
    rcases hcc : cuitOf h with _ | c
    · exact Or.inl rfl
    rcases htt : tipoOf h with _ | t
    · exact Or.inr rfl
    unfold detectInfoFromHeader at he
    rw [hcc, htt] at he
    exact Except.noConfusion he
  · intro hor
    refine ⟨PError.headerDetection (headerErrMsg h), ?_⟩
    unfold detectInfoFromHeader
    rcases hcc : cuitOf h with _ | c
    · rfl
    rcases htt : tipoOf h with _ | t
    · rfl
    rcases hor with hc | ht
    · rw [hcc] at hc
      exact Option.noConfusion hc
    · rw [htt] at ht
      exact Option.noConfusion ht
  · intro msg hmsg
    unfold detectInfoFromHeader at hmsg
    rcases hcc : cuitOf h with _ | c <;> rcases htt : tipoOf h with _ | t <;>
      rw [hcc, htt] at hmsg
    all_goals first
      | (injection hmsg with h1
         injection h1 with h2
         rw [← h2]
         unfold headerErrMsg
         exact containsSub_mid _ _ _)
      | exact Except.noConfusion hmsg
  · intro c t hok
    unfold detectInfoFromHeader at hok
    rcases hcc : cuitOf h with _ | c2 <;> rcases htt : tipoOf h with _ | t2 <;>
      rw [hcc, htt] at hok
    case some.some =>
      injection hok with h1
      obtain ⟨hc2, ht2⟩ : c2 = c ∧ t2 = t := Prod.mk.inj h1
      subst hc2
      subst ht2
      constructor
      · unfold cuitOf at hcc
        split at hcc
        · rename_i d hd
          cases hcc
          exact (findCuitMarker_spec _ _ hd).1
        · obtain ⟨d, hd, hmk⟩ := Option.map_eq_some'.mp hcc
          rw [← hmk]
          exact (findBare11_spec _ _ _ hd).1
      constructor
      · unfold cuitOf at hcc
        split at hcc
        · rename_i d hd
          cases hcc
          exact (findCuitMarker_spec _ _ hd).2
        · obtain ⟨d, hd, hmk⟩ := Option.map_eq_some'.mp hcc
          rw [← hmk]
          exact (findBare11_spec _ _ _ hd).2
      · unfold tipoOf at htt
        split at htt
        · exact Or.inl (Option.some.inj htt).symm
        split at htt
        · exact Or.inr (Option.some.inj htt).symm
        · exact Option.noConfusion htt
    all_goals exact Except.noConfusion hok
  · intro d hd t ht2
    have hcu : cuitOf h = some (String.mk d) := by
      unfold cuitOf
      rw [hd]
    unfold detectInfoFromHeader
    rw [hcu, ht2]
  · intro hnone d hbare t ht2
    have hcu : cuitOf h = some (String.mk d) := by
      unfold cuitOf
      rw [hnone, hbare]
      rfl
    unfold detectInfoFromHeader
    rw [hcu, ht2]
  · intro hemit
    unfold tipoOf
    rw [if_pos hemit]
  · intro h1 h2
    unfold tipoOf
    rw [h1]
    simp [h2]

set_option maxRecDepth 10000 in
/-- Witness for C8 at the scenario banner: the CUIT after the marker and
the ventas direction are extracted. -/
theorem header_detection_witness :
    detectInfoFromHeader sampleBanner = Except.ok (String.mk ("30716820080".data), "ventas") ∧
    String.mk ("30716820080".data) = "30716820080" :=
  ⟨(header_detection sampleBanner).2.2.2.1 ("30716820080".data) (by decide) "ventas" (by decide),
   by decide⟩

end IvaBooks
